import Mathlib

/-!
Verification of the website-cloner backend (`src/backend/app/main.py`).

The backend is a FastAPI application with three pieces:
* `scrape_website` opens a page from a shared Playwright browser inside a
  try/except/finally, navigates, extracts the prettified HTML and a
  base64 screenshot, and always closes the page in the `finally` block;
* `clone_with_llm` reads the OpenAI key from the environment, calls the
  chat-completions service, and post-processes the reply (strip markdown
  fences, detect an empty reply, signal a content-filter rejection
  in-band by returning a fixed sentence);
* `clone_website_endpoint` (POST /api/clone) chains the two and maps each
  failure to an HTTP error response.

External effects (Playwright calls, the chat-completion service, the
environment variable) are modelled by an explicit world record giving the
outcome of each external call; a call that raises in Python is an
`Except.error` outcome, and an exception escaping a function is an
`Except.error` result of that function.  `scrape_website` additionally
returns the trace of page open / page close events so that resource
discipline can be stated.
-/

namespace WebsiteCloner

/-- Characters removed by Python `str.strip()` (the ASCII whitespace
characters; exotic Unicode space code points are not exercised here). -/
def isPySpace (c : Char) : Bool :=
  c == ' ' || c == '\t' || c == '\n' || c == '\r' || c == '\x0b' || c == '\x0c'

/-- Python `str.strip()` on a list of code points: drop leading and
trailing whitespace. -/
def pyStripL (l : List Char) : List Char :=
  ((l.dropWhile isPySpace).reverse.dropWhile isPySpace).reverse

/-- Python `str.strip()` on strings. -/
def pyStrip (s : String) : String := String.mk (pyStripL s.data)

/-- The opening fence marker tested by `startswith("```html")`. -/
def fenceHtml : List Char := ("```html").data

/-- The plain fence marker tested by `endswith("```")`. -/
def tick3 : List Char := ("```").data

/-- Line 139-140: `if generated_html.startswith("```html"): generated_html =
generated_html[7:]`.  Python slicing `s[7:]` is `List.drop 7`. -/
def stripLeadingFence (s : List Char) : List Char :=
  if fenceHtml.isPrefixOf s then s.drop 7 else s

/-- Line 141-142: `if generated_html.endswith("```"): generated_html =
generated_html[:-3]`.  Python slicing `s[:-3]` is `take (length - 3)`. -/
def stripTrailingFence (s : List Char) : List Char :=
  if tick3.isSuffixOf s then s.take (s.length - 3) else s

/-- Post-processing of the model reply, `main.py` lines 138-143:
`strip()`, drop a leading ```` ```html ````, drop a trailing
```` ``` ````, `strip()` again. -/
def postprocessL (l : List Char) : List Char :=
  pyStripL (stripTrailingFence (stripLeadingFence (pyStripL l)))

/-- String-level wrapper of `postprocessL`. -/
def postprocess (s : String) : String := String.mk (postprocessL s.data)

/-- Python `needle in hay` on strings: contiguous-substring test. -/
def pyIn (needle hay : String) : Prop := needle.data <:+: hay.data

instance (needle hay : String) : Decidable (pyIn needle hay) :=
  List.decidableInfix needle.data hay.data

/-- The backtick character (named so that proofs never have to spell the
code point outside a string literal). -/
def tick : Char := ("`").data.headD ' '

/-- The in-band content-filter sentence returned by `clone_with_llm`
(line 148) and tested by the endpoint (line 167). -/
def contentFilterMsg : String := "The request was blocked by the content filter."

/-- The dictionary returned by a successful scrape (lines 71-74). -/
structure ScrapeData where
  html : String
  screenshot : String
deriving DecidableEq, Repr

/-- Outcomes of the external Playwright calls made by `scrape_website`.
Each field gives the result of the corresponding awaited call; an
`Except.error` outcome is the call raising an exception.  `prettify`
is BeautifulSoup's (pure) reformatting of the page HTML. -/
structure ScrapeWorld where
  browserAvailable : Bool
  newPageResult : Except String Unit
  gotoResult : String → Except String Unit
  contentResult : Except String String
  screenshotResult : Except String String
  closeResult : Except String Unit
  prettify : String → String

/-- Page-resource events produced by one call to `scrape_website`:
`pageOpened` when `browser.new_page()` returns a page, `closeCalled`
when the program invokes `page.close()` on it. -/
inductive ScrapeEvent where
  | pageOpened
  | closeCalled
deriving DecidableEq, Repr, BEq

/-- `scrape_website` (lines 49-80).  Returns the function's outcome
(`Except.error e` when an exception escapes, `Except.ok none` for the
`return None` failure paths, `Except.ok (some d)` for success) together
with the page-event trace.  Structure mirrors the source: the browser
lookup and `new_page` happen before the `try`; `goto`, `content` and
`screenshot` are inside the `try` whose `except` clause returns `None`;
the `finally` clause closes the page unless it is already closed (no
statement in the `try` body closes it, so the flag stays `false`). -/
def scrape_website (w : ScrapeWorld) (url : String) :
    Except String (Option ScrapeData) × List ScrapeEvent :=
  if w.browserAvailable = false then
    (Except.ok none, [])
  else
    match w.newPageResult with
    | Except.error e => (Except.error e, [])
    | Except.ok _ =>
      let pageClosed : Bool := false
      let tryBody : Except String (Option ScrapeData) :=
        match w.gotoResult url with
        | Except.error _ => Except.ok none
        | Except.ok _ =>
          match w.contentResult with
          | Except.error _ => Except.ok none
          | Except.ok html_content =>
            match w.screenshotResult with
            | Except.error _ => Except.ok none
            | Except.ok screenshot_base64 =>
              Except.ok (some { html := w.prettify html_content
                              , screenshot := screenshot_base64 })
      if pageClosed = true then
        (tryBody, [ScrapeEvent.pageOpened])
      else
        match w.closeResult with
        | Except.error e =>
          (Except.error e, [ScrapeEvent.pageOpened, ScrapeEvent.closeCalled])
        | Except.ok _ =>
          (tryBody, [ScrapeEvent.pageOpened, ScrapeEvent.closeCalled])

/-- One choice of a chat-completion response: `message.content` and
`finish_reason`. -/
structure Choice where
  content : Option String
  finish_reason : String
deriving DecidableEq, Repr

/-- A chat-completion response: its list of choices. -/
structure ChatResponse where
  choices : List Choice
deriving DecidableEq, Repr

/-- External environment of `clone_with_llm`: the credential as read by
`os.getenv("OPENAI_API_KEY")` at call time (`none` when unset) and the
outcome of the `chat.completions.create` call (`Except.error` when the
call raises). -/
structure LLMWorld where
  apiKey : Option String
  createResult : Except String ChatResponse

/-- Python truthiness of an optional string: `None` and `""` are falsy. -/
def pyTruthy (o : Option String) : Bool :=
  match o with
  | none => false
  | some s => if s = "" then false else true

/-- The request sent to the chat-completion service (lines 109-135),
recording how the scraped data is embedded into it: the screenshot in the
image data URL, the HTML in the structural-reference text. -/
structure ChatCall where
  model : String
  image_url : String
  html_ref : String
  max_tokens : Nat
deriving DecidableEq, Repr

/-- Builds the service request from the scraped data (lines 91-135). -/
def mkChatCall (d : ScrapeData) : ChatCall :=
  { model := "gpt-4.1-2025-04-14"
  , image_url := ("data:image/png;base64,") ++ d.screenshot
  , html_ref := ("Here is the original HTML for structural reference:\n\n") ++ d.html
  , max_tokens := 10000 }

/-- `clone_with_llm` (lines 82-153).  Returns the Python `Optional[str]`
result together with the list of service calls made.  The whole body is
inside `try/except Exception`, so the missing-credential `RuntimeError`
and an exception from `create` both become `None`.  The success test
(line 137) is Python truthiness of `response.choices` and of
`choices[0].message.content`; on success the reply is post-processed; an
empty reply with finish reason `content_filter` yields the in-band
sentence, any other empty reply yields `None`. -/
def clone_with_llm (w : LLMWorld) (data : ScrapeData) : Option String × List ChatCall :=
  if pyTruthy w.apiKey = false then
    (none, [])
  else
    match w.createResult with
    | Except.error _ => (none, [mkChatCall data])
    | Except.ok response =>
      match response.choices with
      | [] =>
        if ("No choices returned" : String) = "content_filter" then
          (some contentFilterMsg, [mkChatCall data])
        else
          (none, [mkChatCall data])
      | choice0 :: _ =>
        match choice0.content with
        | some content =>
          if content = "" then
            if choice0.finish_reason = "content_filter" then
              (some contentFilterMsg, [mkChatCall data])
            else
              (none, [mkChatCall data])
          else
            (some (postprocess content), [mkChatCall data])
        | none =>
          if choice0.finish_reason = "content_filter" then
            (some contentFilterMsg, [mkChatCall data])
          else
            (none, [mkChatCall data])

/-- Responses of the clone endpoint: a 200 JSON body with `html_content`,
or an `HTTPException` with status code and detail. -/
inductive EndpointResponse where
  | success (html_content : String)
  | httpError (status : Nat) (detail : String)
deriving DecidableEq, Repr

/-- `clone_website_endpoint` (lines 158-170).  Returns the endpoint
outcome (`Except.error` when an exception other than `HTTPException`
escapes, e.g. out of `scrape_website`) together with the list of
arguments with which `clone_with_llm` was invoked. -/
def clone_website_endpoint (sw : ScrapeWorld) (lw : LLMWorld) (url : String) :
    Except String EndpointResponse × List ScrapeData :=
  match (scrape_website sw url).1 with
  | Except.error e => (Except.error e, [])
  | Except.ok none =>
    (Except.ok (EndpointResponse.httpError 500 ("Failed to scrape the target website.")), [])
  | Except.ok (some scraped_data) =>
    match (clone_with_llm lw scraped_data).1 with
    | none =>
      (Except.ok (EndpointResponse.httpError 500 ("AI model failed to generate the HTML content."))
      , [scraped_data])
    | some generated_html =>
      if pyIn contentFilterMsg generated_html then
        (Except.ok (EndpointResponse.httpError 400
          ("AI content filter blocked the request. Try a different URL.")), [scraped_data])
      else
        (Except.ok (EndpointResponse.success generated_html), [scraped_data])

/-! Concrete environments used to instantiate the theorems below. -/

/-- A world in which every Playwright call succeeds: scraping any URL
yields `scrapedExample`. -/
def goodScrapeWorld : ScrapeWorld :=
  { browserAvailable := true
  , newPageResult := Except.ok ()
  , gotoResult := fun _ => Except.ok ()
  , contentResult := Except.ok ("<html>...</html>")
  , screenshotResult := Except.ok ("<base64>")
  , closeResult := Except.ok ()
  , prettify := id }

/-- The scrape result produced by `goodScrapeWorld`. -/
def scrapedExample : ScrapeData :=
  { html := "<html>...</html>", screenshot := "<base64>" }

/-- A world in which the shared browser is not available, so the scraper
fails before opening a page. -/
def noBrowserWorld : ScrapeWorld :=
  { goodScrapeWorld with browserAvailable := false }

/-- A world in which `browser.new_page()` itself raises. -/
def badNewPageWorld : ScrapeWorld :=
  { goodScrapeWorld with newPageResult := Except.error ("TargetClosedError") }

/-- A world in which navigation fails for every URL (unreachable host),
while page open and close succeed. -/
def badUrlScrapeWorld : ScrapeWorld :=
  { goodScrapeWorld with gotoResult := fun _ => Except.error ("net::ERR_NAME_NOT_RESOLVED") }

/-- A generation world whose service reply is the stub page. -/
def hiLLMWorld : LLMWorld :=
  { apiKey := some ("sk-test")
  , createResult := Except.ok
      { choices := [ { content := some ("<html><body>Hi</body></html>")
                     , finish_reason := "stop" } ] } }

/-- A generation world whose reply is empty with finish reason
`content_filter`. -/
def filteredLLMWorld : LLMWorld :=
  { apiKey := some ("sk-test")
  , createResult := Except.ok
      { choices := [ { content := none, finish_reason := "content_filter" } ] } }

/-- A generation world whose reply is empty with an ordinary finish
reason. -/
def emptyReplyLLMWorld : LLMWorld :=
  { apiKey := some ("sk-test")
  , createResult := Except.ok
      { choices := [ { content := none, finish_reason := "length" } ] } }

/-- A generation world with no `OPENAI_API_KEY` in the environment. -/
def noKeyLLMWorld : LLMWorld :=
  { apiKey := none
  , createResult := Except.ok
      { choices := [ { content := some ("<html></html>"), finish_reason := "stop" } ] } }

/-- A generation world whose non-empty reply contains the content-filter
sentence in running text. -/
def inBandLLMWorld : LLMWorld :=
  { apiKey := some ("sk-test")
  , createResult := Except.ok
      { choices := [ { content := some ("<p>The request was blocked by the content filter.</p>")
                     , finish_reason := "stop" } ] } }

/-- A generation world whose reply consists only of fence markers and a
newline. -/
def fenceOnlyLLMWorld : LLMWorld :=
  { apiKey := some ("sk-test")
  , createResult := Except.ok
      { choices := [ { content := some ("```html\n```"), finish_reason := "stop" } ] } }

/-! Helper lemmas about the fence-stripping post-processing. -/

lemma pyStripL_sandwich (a b : Char) (l : List Char)
    (ha : isPySpace a = false) (hb : isPySpace b = false) :
    pyStripL (a :: (l ++ [b])) = a :: (l ++ [b]) := by
  unfold pyStripL
  rw [List.dropWhile_cons_of_neg (by simp [ha])]
  rw [show (a :: (l ++ [b])).reverse = b :: (l.reverse ++ [a]) from by simp]
  rw [List.dropWhile_cons_of_neg (by simp [hb])]
  simp

lemma stripLeadingFence_append (x : List Char) :
    stripLeadingFence (fenceHtml ++ x) = x := by
  have h : fenceHtml.isPrefixOf (fenceHtml ++ x) :=
    List.isPrefixOf_iff_prefix.mpr (List.prefix_append _ _)
  rw [stripLeadingFence, if_pos h]
  exact List.drop_left' (by decide)

lemma stripTrailingFence_append (x : List Char) :
    stripTrailingFence (x ++ tick3) = x := by
  have h : tick3.isSuffixOf (x ++ tick3) :=
    List.isSuffixOf_iff_suffix.mpr (List.suffix_append _ _)
  have ht : tick3.length = 3 := by decide
  rw [stripTrailingFence, if_pos h]
  have hl : (x ++ tick3).length - 3 = x.length := by
    simp [List.length_append, ht]
  rw [hl]
  exact List.take_left' rfl

lemma stripLeadingFence_of_neg (s : List Char)
    (h : fenceHtml.isPrefixOf s = false) : stripLeadingFence s = s := by
  rw [stripLeadingFence, if_neg (by simp [h])]

lemma stripTrailingFence_of_neg (s : List Char)
    (h : tick3.isSuffixOf s = false) : stripTrailingFence s = s := by
  rw [stripTrailingFence, if_neg (by simp [h])]

lemma postprocessL_fenced (inner : List Char) :
    postprocessL (fenceHtml ++ (inner ++ tick3)) = pyStripL inner := by
  have htick : isPySpace tick = false := by decide
  have hfh : fenceHtml = tick :: ("``html").data := by decide
  have ht3 : tick3 = ("``").data ++ [tick] := by decide
  have e : fenceHtml ++ (inner ++ tick3)
      = tick :: ((("``html").data ++ (inner ++ ("``").data)) ++ [tick]) := by
    rw [hfh, ht3]; simp
  rw [postprocessL]
  rw [show pyStripL (fenceHtml ++ (inner ++ tick3)) = fenceHtml ++ (inner ++ tick3) from by
    rw [e]; exact pyStripL_sandwich _ _ _ htick htick]
  rw [stripLeadingFence_append, stripTrailingFence_append]

lemma postprocessL_noFence (l : List Char) (hnf : ¬ tick3 <:+: l)
    (hs : pyStripL l = l) : postprocessL l = l := by
  have hpre : fenceHtml.isPrefixOf l = false := by
    cases hb : fenceHtml.isPrefixOf l with
    | false => rfl
    | true =>
      exact absurd
        ((List.IsPrefix.trans (by decide) (List.isPrefixOf_iff_prefix.mp hb)).isInfix) hnf
  have hsuf : tick3.isSuffixOf l = false := by
    cases hb : tick3.isSuffixOf l with
    | false => rfl
    | true =>
      exact absurd (List.IsSuffix.isInfix (List.isSuffixOf_iff_suffix.mp hb)) hnf
  rw [postprocessL, hs, stripLeadingFence_of_neg _ hpre, stripTrailingFence_of_neg _ hsuf, hs]

/-- C4 counterexample: the input `" hi "` is free of fence markers, yet
post-processing returns `"hi"`, not the input itself — the final
`strip()` also changes fence-free inputs, so the claim as stated fails. -/
theorem postprocess_not_identity_on_fence_free_input :
    ¬ pyIn ("```") (" hi ") ∧ postprocess (" hi ") = "hi" ∧
      postprocess (" hi ") ≠ " hi " := by decide

/-- C4 (amended): for every input free of fence markers that is already
whitespace-stripped, post-processing returns the input unchanged; and for
every input wrapped as ```` ```html<inner>``` ````, post-processing
returns the inner text stripped of leading and trailing whitespace. -/
theorem postprocess_fence_stripping :
    (∀ s : String, ¬ pyIn ("```") s → pyStrip s = s → postprocess s = s) ∧
    (∀ inner : String,
      postprocess ((("```html") ++ inner) ++ ("```")) = pyStrip inner) := by
  constructor
  · intro s hnf hs
    have hs' : pyStripL s.data = s.data := congrArg String.data hs
    show String.mk (postprocessL s.data) = s
    rw [postprocessL_noFence s.data hnf hs']
  · intro inner
    show String.mk (postprocessL ((("```html" : String) ++ inner) ++ ("```" : String)).data)
      = pyStrip inner
    rw [String.data_append, String.data_append]
    rw [show (("```html" : String).data ++ inner.data) ++ ("```" : String).data
        = fenceHtml ++ (inner.data ++ tick3) from by
      simp [fenceHtml, tick3, List.append_assoc]]
    rw [postprocessL_fenced]
    rfl

/-- Witness for C4 (amended): a fence-free stripped input is returned
unchanged, and a fenced input is unwrapped and stripped. -/
theorem postprocess_fence_stripping_witness :
    (¬ pyIn ("```") ("hello") ∧ pyStrip ("hello") = "hello" ∧
      postprocess ("hello") = "hello") ∧
    postprocess ((("```html") ++ ("\nbody\n")) ++ ("```")) = pyStrip ("\nbody\n") ∧
    pyStrip ("\nbody\n") = "body" :=
  ⟨⟨by decide, by decide,
      postprocess_fence_stripping.1 ("hello") (by decide) (by decide)⟩,
    postprocess_fence_stripping.2 ("\nbody\n"), by decide⟩

/-! Page-resource discipline of the scraper. -/

/-- C1: in every environment and for every URL, the scraper's event trace
opens at most one page, and `page.close()` is invoked exactly as many
times as a page was opened — once on every path (success or failure) on
which `browser.new_page()` returned a page, never twice, and never on a
path where no page was opened. -/
theorem scrape_website_page_close_balanced (w : ScrapeWorld) (url : String) :
    (scrape_website w url).2.count ScrapeEvent.pageOpened ≤ 1 ∧
    (scrape_website w url).2.count ScrapeEvent.closeCalled
      = (scrape_website w url).2.count ScrapeEvent.pageOpened := by
  have htr : (scrape_website w url).2 = [] ∨
      (scrape_website w url).2 = [ScrapeEvent.pageOpened, ScrapeEvent.closeCalled] := by
    obtain ⟨ba, np, gt, ct, sc, cl, pr⟩ := w
    cases ba <;> cases np <;> cases cl <;>
      first
        | exact Or.inl rfl
        | exact Or.inr rfl
  cases htr with
  | inl h => rw [h]; exact ⟨by decide, by decide⟩
  | inr h => rw [h]; exact ⟨by decide, by decide⟩

/-- Helper: when the browser is available and both `new_page` and
`close` succeed, the scraper returns normally (no escaping exception)
and its outcome is decided by the calls inside the `try` block. -/
lemma scrape_website_ok_shape (w : ScrapeWorld) (url : String)
    (hb : w.browserAvailable = true)
    (hnp : w.newPageResult = Except.ok ())
    (hcl : w.closeResult = Except.ok ()) :
    ∃ r, (scrape_website w url).1 = Except.ok r := by
  obtain ⟨ba, np, gt, ct, sc, cl, pr⟩ := w
  cases hb; cases hnp; cases hcl
  cases hg : gt url with
  | error e => exact ⟨none, by simp [scrape_website, hg]⟩
  | ok u =>
    cases ct with
    | error e1 => exact ⟨none, by simp [scrape_website, hg]⟩
    | ok html_content =>
      cases sc with
      | error e2 => exact ⟨none, by simp [scrape_website, hg]⟩
      | ok shot => exact ⟨some ⟨pr html_content, shot⟩, by simp [scrape_website, hg]⟩

/-- C7 counterexample: `browser.new_page()` sits before the `try` block
(line 59), so when it raises, the exception escapes `scrape_website`
instead of being returned as a `None` failure. -/
theorem scrape_website_exception_escapes :
    (scrape_website badNewPageWorld ("https://example.com")).1
        = Except.error ("TargetClosedError") ∧
    (scrape_website badNewPageWorld ("https://example.com")).1 ≠ Except.ok none :=
  ⟨rfl, by intro h; exact Except.noConfusion h⟩

/-- C7 (amended): whenever the page-handle operations themselves
(`new_page`, `close`) do not raise, no exception escapes the scraper —
in particular every navigation failure (empty, malformed or unreachable
URL) is caught by the `except` clause and returned as a `None` failure;
but a failure raised by `new_page` (outside the `try`) or by the final
`close` escapes to the caller. -/
theorem scrape_website_url_failures_are_caught (w : ScrapeWorld) (url : String)
    (hnp : w.newPageResult = Except.ok ())
    (hcl : w.closeResult = Except.ok ()) :
    (∃ r, (scrape_website w url).1 = Except.ok r) ∧
    (∀ e, w.gotoResult url = Except.error e →
      (scrape_website w url).1 = Except.ok none) := by
  cases hb : w.browserAvailable with
  | false =>
    exact ⟨⟨none, by simp [scrape_website, hb]⟩,
      fun e he => by simp [scrape_website, hb]⟩
  | true =>
    refine ⟨scrape_website_ok_shape w url hb hnp hcl, fun e he => ?_⟩
    obtain ⟨ba, np, gt, ct, sc, cl, pr⟩ := w
    cases hb; cases hnp; cases hcl
    simp only at he
    simp [scrape_website, he]

/-- Witness for C7 (amended): in a world where navigation to an
unreachable host raises, the scraper returns the `None` failure. -/
theorem scrape_website_url_failures_are_caught_witness :
    badUrlScrapeWorld.newPageResult = Except.ok () ∧
    badUrlScrapeWorld.closeResult = Except.ok () ∧
    (scrape_website badUrlScrapeWorld ("http://no-such-host.invalid")).1
      = Except.ok none :=
  ⟨rfl, rfl,
    (scrape_website_url_failures_are_caught badUrlScrapeWorld
      ("http://no-such-host.invalid") rfl rfl).2 _ rfl⟩

/-! Helper lemmas about the generator and the endpoint. -/

lemma clone_with_llm_noKey (lw : LLMWorld) (d : ScrapeData)
    (hk : pyTruthy lw.apiKey = false) :
    clone_with_llm lw d = (none, []) := by
  simp [clone_with_llm, hk]

lemma clone_with_llm_success (lw : LLMWorld) (d : ScrapeData)
    (resp : ChatResponse) (c : Choice) (cs : List Choice) (s : String)
    (hk : pyTruthy lw.apiKey = true)
    (hc : lw.createResult = Except.ok resp)
    (hch : resp.choices = c :: cs)
    (hcont : c.content = some s) (hne : s ≠ "") :
    (clone_with_llm lw d).1 = some (postprocess s) := by
  simp [clone_with_llm, hk, hc, hch, hcont, hne]

lemma clone_with_llm_filtered (lw : LLMWorld) (d : ScrapeData)
    (resp : ChatResponse) (c : Choice) (cs : List Choice)
    (hk : pyTruthy lw.apiKey = true)
    (hc : lw.createResult = Except.ok resp)
    (hch : resp.choices = c :: cs)
    (hempty : c.content = none ∨ c.content = some "")
    (hfr : c.finish_reason = "content_filter") :
    (clone_with_llm lw d).1 = some contentFilterMsg := by
  rcases hempty with h | h <;> simp [clone_with_llm, hk, hc, hch, h, hfr]

lemma clone_with_llm_empty_fail (lw : LLMWorld) (d : ScrapeData)
    (resp : ChatResponse) (c : Choice) (cs : List Choice)
    (hk : pyTruthy lw.apiKey = true)
    (hc : lw.createResult = Except.ok resp)
    (hch : resp.choices = c :: cs)
    (hempty : c.content = none ∨ c.content = some "")
    (hfr : c.finish_reason ≠ "content_filter") :
    (clone_with_llm lw d).1 = none := by
  rcases hempty with h | h <;> simp [clone_with_llm, hk, hc, hch, h, hfr]

lemma endpoint_of_scrape_none (sw : ScrapeWorld) (lw : LLMWorld) (url : String)
    (hs : (scrape_website sw url).1 = Except.ok none) :
    clone_website_endpoint sw lw url
      = (Except.ok (EndpointResponse.httpError 500
          ("Failed to scrape the target website.")), []) := by
  simp [clone_website_endpoint, hs]

lemma endpoint_of_gen_none (sw : ScrapeWorld) (lw : LLMWorld) (url : String)
    (d : ScrapeData)
    (hs : (scrape_website sw url).1 = Except.ok (some d))
    (hg : (clone_with_llm lw d).1 = none) :
    clone_website_endpoint sw lw url
      = (Except.ok (EndpointResponse.httpError 500
          ("AI model failed to generate the HTML content.")), [d]) := by
  simp [clone_website_endpoint, hs, hg]

lemma endpoint_of_gen_filtered (sw : ScrapeWorld) (lw : LLMWorld) (url : String)
    (d : ScrapeData) (g : String)
    (hs : (scrape_website sw url).1 = Except.ok (some d))
    (hg : (clone_with_llm lw d).1 = some g)
    (hin : pyIn contentFilterMsg g) :
    clone_website_endpoint sw lw url
      = (Except.ok (EndpointResponse.httpError 400
          ("AI content filter blocked the request. Try a different URL.")), [d]) := by
  simp [clone_website_endpoint, hs, hg, hin]

lemma endpoint_of_gen_clean (sw : ScrapeWorld) (lw : LLMWorld) (url : String)
    (d : ScrapeData) (g : String)
    (hs : (scrape_website sw url).1 = Except.ok (some d))
    (hg : (clone_with_llm lw d).1 = some g)
    (hin : ¬ pyIn contentFilterMsg g) :
    clone_website_endpoint sw lw url
      = (Except.ok (EndpointResponse.success g), [d]) := by
  simp [clone_website_endpoint, hs, hg, hin]

/-! The clone endpoint claims. -/

/-- C2: whenever the scraper returns the `None` failure, the endpoint
answers 500 with detail `Failed to scrape the target website.` and the
generator is never invoked (the invocation list is empty). -/
theorem clone_endpoint_scrape_failure (sw : ScrapeWorld) (lw : LLMWorld) (url : String)
    (hs : (scrape_website sw url).1 = Except.ok none) :
    clone_website_endpoint sw lw url
      = (Except.ok (EndpointResponse.httpError 500
          ("Failed to scrape the target website.")), []) :=
  endpoint_of_scrape_none sw lw url hs

/-- Witness for C2: with the shared browser unavailable the scraper
fails, the endpoint answers the 500 scrape failure and the generator is
not called. -/
theorem clone_endpoint_scrape_failure_witness :
    (scrape_website noBrowserWorld ("https://example.com")).1 = Except.ok none ∧
    clone_website_endpoint noBrowserWorld hiLLMWorld ("https://example.com")
      = (Except.ok (EndpointResponse.httpError 500
          ("Failed to scrape the target website.")), []) :=
  ⟨rfl, clone_endpoint_scrape_failure noBrowserWorld hiLLMWorld ("https://example.com") rfl⟩

/-- C3: when the scrape succeeds and the generation service's reply is
empty (`None` or `""`) with finish reason `content_filter`, the endpoint
answers the distinguished 400 content-filter response, not the generic
500. -/
theorem clone_endpoint_content_filter (sw : ScrapeWorld) (lw : LLMWorld) (url : String)
    (d : ScrapeData) (resp : ChatResponse) (c : Choice) (cs : List Choice)
    (hs : (scrape_website sw url).1 = Except.ok (some d))
    (hk : pyTruthy lw.apiKey = true)
    (hc : lw.createResult = Except.ok resp)
    (hch : resp.choices = c :: cs)
    (hempty : c.content = none ∨ c.content = some "")
    (hfr : c.finish_reason = "content_filter") :
    clone_website_endpoint sw lw url
      = (Except.ok (EndpointResponse.httpError 400
          ("AI content filter blocked the request. Try a different URL.")), [d]) := by
  have hg := clone_with_llm_filtered lw d resp c cs hk hc hch hempty hfr
  have hin : pyIn contentFilterMsg contentFilterMsg := List.infix_refl _
  exact endpoint_of_gen_filtered sw lw url d _ hs hg hin

/-- Witness for C3: a concrete empty reply with finish reason
`content_filter` produces the 400 response. -/
theorem clone_endpoint_content_filter_witness :
    (scrape_website goodScrapeWorld ("https://example.com")).1
        = Except.ok (some scrapedExample) ∧
    clone_website_endpoint goodScrapeWorld filteredLLMWorld ("https://example.com")
      = (Except.ok (EndpointResponse.httpError 400
          ("AI content filter blocked the request. Try a different URL.")), [scrapedExample]) :=
  ⟨rfl, clone_endpoint_content_filter goodScrapeWorld filteredLLMWorld
      ("https://example.com") scrapedExample _ _ _ rfl rfl rfl rfl (Or.inl rfl) rfl⟩

/-- C5: when the scraper succeeds with data `d`, the endpoint invokes the
generator exactly once, with exactly `d` (the scraper's HTML string and
screenshot, unmodified); and when the generator succeeds with output `g`
(not carrying the in-band filter sentence), the endpoint answers 200 with
`html_content = g`. -/
theorem clone_endpoint_argument_fidelity (sw : ScrapeWorld) (lw : LLMWorld) (url : String)
    (d : ScrapeData)
    (hs : (scrape_website sw url).1 = Except.ok (some d)) :
    (clone_website_endpoint sw lw url).2 = [d] ∧
    (∀ g, (clone_with_llm lw d).1 = some g → ¬ pyIn contentFilterMsg g →
      (clone_website_endpoint sw lw url).1 = Except.ok (EndpointResponse.success g)) := by
  constructor
  · cases hg : (clone_with_llm lw d).1 with
    | none => rw [endpoint_of_gen_none sw lw url d hs hg]
    | some g =>
      by_cases hin : pyIn contentFilterMsg g
      · rw [endpoint_of_gen_filtered sw lw url d g hs hg hin]
      · rw [endpoint_of_gen_clean sw lw url d g hs hg hin]
  · intro g hg hin
    rw [endpoint_of_gen_clean sw lw url d g hs hg hin]

/-- Witness for C5: the concrete scenario — stub scrape result plus stub
generator output yields status 200 with exactly that output. -/
theorem clone_endpoint_argument_fidelity_witness :
    (scrape_website goodScrapeWorld ("https://example.com")).1
        = Except.ok (some scrapedExample) ∧
    (clone_website_endpoint goodScrapeWorld hiLLMWorld ("https://example.com")).2
        = [scrapedExample] ∧
    (clone_website_endpoint goodScrapeWorld hiLLMWorld ("https://example.com")).1
        = Except.ok (EndpointResponse.success ("<html><body>Hi</body></html>")) := by
  have h := clone_endpoint_argument_fidelity goodScrapeWorld hiLLMWorld
    ("https://example.com") scrapedExample rfl
  exact ⟨rfl, h.1, h.2 ("<html><body>Hi</body></html>") (by decide) (by decide)⟩

/-- C6: when the scrape succeeds and the generation service's reply is
empty (`None` or `""`) with a finish reason other than the
content-filter signal, the endpoint answers 500 with detail
`AI model failed to generate the HTML content.`. -/
theorem clone_endpoint_generation_failure (sw : ScrapeWorld) (lw : LLMWorld) (url : String)
    (d : ScrapeData) (resp : ChatResponse) (c : Choice) (cs : List Choice)
    (hs : (scrape_website sw url).1 = Except.ok (some d))
    (hk : pyTruthy lw.apiKey = true)
    (hc : lw.createResult = Except.ok resp)
    (hch : resp.choices = c :: cs)
    (hempty : c.content = none ∨ c.content = some "")
    (hfr : c.finish_reason ≠ "content_filter") :
    clone_website_endpoint sw lw url
      = (Except.ok (EndpointResponse.httpError 500
          ("AI model failed to generate the HTML content.")), [d]) := by
  have hg := clone_with_llm_empty_fail lw d resp c cs hk hc hch hempty hfr
  exact endpoint_of_gen_none sw lw url d hs hg

/-- Witness for C6: a concrete empty reply with finish reason `length`
produces the 500 generation-failure response. -/
theorem clone_endpoint_generation_failure_witness :
    (scrape_website goodScrapeWorld ("https://example.com")).1
        = Except.ok (some scrapedExample) ∧
    clone_website_endpoint goodScrapeWorld emptyReplyLLMWorld ("https://example.com")
      = (Except.ok (EndpointResponse.httpError 500
          ("AI model failed to generate the HTML content.")), [scrapedExample]) :=
  ⟨rfl, clone_endpoint_generation_failure goodScrapeWorld emptyReplyLLMWorld
      ("https://example.com") scrapedExample _ _ _ rfl rfl rfl rfl (Or.inl rfl) (by decide)⟩

/-- C8: when `OPENAI_API_KEY` is absent from the environment read at call
time, the generator returns the `None` failure without making a service
call, and the endpoint turns it into the 500 generation-failure response
— a returned error, not a crash (the endpoint outcome is `Except.ok`). -/
theorem clone_endpoint_missing_credential (lw : LLMWorld)
    (hk : lw.apiKey = none) :
    (∀ d, clone_with_llm lw d = (none, [])) ∧
    (∀ sw url d, (scrape_website sw url).1 = Except.ok (some d) →
      clone_website_endpoint sw lw url
        = (Except.ok (EndpointResponse.httpError 500
            ("AI model failed to generate the HTML content.")), [d])) := by
  have hk' : pyTruthy lw.apiKey = false := by rw [hk]; rfl
  refine ⟨fun d => clone_with_llm_noKey lw d hk', fun sw url d hs => ?_⟩
  exact endpoint_of_gen_none sw lw url d hs (by rw [clone_with_llm_noKey lw d hk'])

/-- Witness for C8: with the credential unset, the generator fails
without calling the service and the endpoint answers the 500
generation-failure response. -/
theorem clone_endpoint_missing_credential_witness :
    noKeyLLMWorld.apiKey = none ∧
    clone_with_llm noKeyLLMWorld scrapedExample = (none, []) ∧
    clone_website_endpoint goodScrapeWorld noKeyLLMWorld ("https://example.com")
      = (Except.ok (EndpointResponse.httpError 500
          ("AI model failed to generate the HTML content.")), [scrapedExample]) :=
  ⟨rfl, (clone_endpoint_missing_credential noKeyLLMWorld rfl).1 scrapedExample,
    (clone_endpoint_missing_credential noKeyLLMWorld rfl).2
      goodScrapeWorld ("https://example.com") scrapedExample rfl⟩

/-- C9: the content-filter outcome is signalled in-band — when the
service returns a successful, non-empty reply whose post-processed text
contains the sentence `The request was blocked by the content filter.`
anywhere, the endpoint answers the 400 content-filter response even
though the model produced content. -/
theorem clone_endpoint_in_band_filter_signal (sw : ScrapeWorld) (lw : LLMWorld)
    (url : String) (d : ScrapeData) (resp : ChatResponse) (c : Choice)
    (cs : List Choice) (s : String)
    (hs : (scrape_website sw url).1 = Except.ok (some d))
    (hk : pyTruthy lw.apiKey = true)
    (hc : lw.createResult = Except.ok resp)
    (hch : resp.choices = c :: cs)
    (hcont : c.content = some s) (hne : s ≠ "")
    (hin : pyIn contentFilterMsg (postprocess s)) :
    clone_website_endpoint sw lw url
      = (Except.ok (EndpointResponse.httpError 400
          ("AI content filter blocked the request. Try a different URL.")), [d]) := by
  have hg := clone_with_llm_success lw d resp c cs s hk hc hch hcont hne
  exact endpoint_of_gen_filtered sw lw url d _ hs hg hin

/-- Witness for C9: a genuine generation whose text merely mentions the
filter sentence is reported as content-filtered with status 400. -/
theorem clone_endpoint_in_band_filter_signal_witness :
    (scrape_website goodScrapeWorld ("https://example.com")).1
        = Except.ok (some scrapedExample) ∧
    clone_website_endpoint goodScrapeWorld inBandLLMWorld ("https://example.com")
      = (Except.ok (EndpointResponse.httpError 400
          ("AI content filter blocked the request. Try a different URL.")), [scrapedExample]) :=
  ⟨rfl, clone_endpoint_in_band_filter_signal goodScrapeWorld inBandLLMWorld
      ("https://example.com") scrapedExample _ _ _
      ("<p>The request was blocked by the content filter.</p>")
      rfl rfl rfl rfl rfl (by decide) (by decide)⟩

/-- C10: a reply consisting only of fence markers and whitespace
post-processes to the empty string, which the endpoint treats as success:
it answers 200 with `html_content = ""`, not a generation failure. -/
theorem clone_endpoint_fence_only_reply_success (sw : ScrapeWorld) (lw : LLMWorld)
    (url : String) (d : ScrapeData) (resp : ChatResponse) (c : Choice)
    (cs : List Choice) (s : String)
    (hs : (scrape_website sw url).1 = Except.ok (some d))
    (hk : pyTruthy lw.apiKey = true)
    (hc : lw.createResult = Except.ok resp)
    (hch : resp.choices = c :: cs)
    (hcont : c.content = some s) (hne : s ≠ "")
    (hpost : postprocess s = "") :
    clone_website_endpoint sw lw url
      = (Except.ok (EndpointResponse.success ("")), [d]) := by
  have hg := clone_with_llm_success lw d resp c cs s hk hc hch hcont hne
  rw [hpost] at hg
  have hin : ¬ pyIn contentFilterMsg ("") := by decide
  exact endpoint_of_gen_clean sw lw url d _ hs hg hin

/-- Witness for C10: the reply `"```html\n```"` strips to the empty
string and the endpoint answers 200 with an empty `html_content`. -/
theorem clone_endpoint_fence_only_reply_success_witness :
    (scrape_website goodScrapeWorld ("https://example.com")).1
        = Except.ok (some scrapedExample) ∧
    postprocess ("```html\n```") = "" ∧
    clone_website_endpoint goodScrapeWorld fenceOnlyLLMWorld ("https://example.com")
      = (Except.ok (EndpointResponse.success ("")), [scrapedExample]) :=
  ⟨rfl, by decide, clone_endpoint_fence_only_reply_success goodScrapeWorld
      fenceOnlyLLMWorld ("https://example.com") scrapedExample _ _ _
      ("```html\n```") rfl rfl rfl rfl rfl (by decide) (by decide)⟩

end WebsiteCloner
